import Mathlib

/-!
# Verification of the 3dviewer ZMQ command-and-control bus

Shallow embedding of the message-bus core of the `3dviewer` repository:

* `zmq_command_processor.py` — `ZMQCommandProcessor` (command registry and
  all command handlers),
* `zmq_client.py` — `ViewerZMQClient._handle_command` and the `run_zmq`
  poll-loop filter,
* `3dviewer_gui.py` — the main-thread slots `handle_zmq_load_data`,
  `handle_zmq_set_tf`, `handle_zmq_exec_command`,
* `qt_main.py` — the alternative main-thread slot `handle_zmq_load_data`.

Conventions of the embedding:

* Python floats are modelled as exact rationals (`ℚ`); Python `float(...)`
  and `int(...)` string conversions are modelled by explicit partial
  parsers returning `Option`.
* A Python exception raised inside a handler is modelled by `Except PyExc`;
  every raise point in the source precedes all state writes, so an
  exceptional result carries no state.
* Reply texts (Python f-strings) are modelled by an inductive type `Msg`
  with one constructor per f-string template in the source, carrying the
  interpolated values; the exact rendering of floats into decimal text is
  not re-implemented.
* File/image I/O and GL texture work are out of scope (spec §1); the
  outcome of `AppCore.load_dataset` and of the natural-language command
  interpreter are abstract oracle fields of the state.
-/

set_option linter.unusedVariables false

namespace ThreeDViewer

/-! ## Python string and number primitives -/

/-- Python `str.lower()` (ASCII case folding suffices for the command
vocabulary of this program). -/
def pyLower (s : String) : String :=
  ⟨s.data.map Char.toLower⟩

/-- Python `str.strip()` with no argument: remove leading and trailing
whitespace. -/
def pyStrip (s : String) : String :=
  ⟨((s.data.dropWhile Char.isWhitespace).reverse.dropWhile Char.isWhitespace).reverse⟩

/-- Python `str.isdigit()` restricted to ASCII digits (the only ones a
slot argument can contain on this wire). -/
def pyIsDigit (s : String) : Bool :=
  s ≠ "" && s.data.all Char.isDigit

/-- Python `str.endswith(suffix)`. -/
def pyEndsWith (s suffix : String) : Bool :=
  suffix.data.isSuffixOf s.data

/-- Python `str.rstrip("%")`: drop every trailing `%`. -/
def pyRstripPercent (s : String) : String :=
  ⟨(s.data.reverse.dropWhile (· = '%')).reverse⟩

/-- Digits of a character list read as a natural number (most significant
first); meaningful only when all characters are digits. -/
def digitsVal (cs : List Char) : Nat :=
  cs.foldl (fun acc c => 10 * acc + (c.toNat - '0'.toNat)) 0

/-- Python `int(s)` on a string: optional surrounding whitespace, optional
sign, one or more ASCII digits.  Returns `none` where Python raises
`ValueError`. -/
def pyInt? (s : String) : Option Int :=
  let cs := (pyStrip s).data
  match cs with
  | [] => none
  | '+' :: rest =>
      if rest ≠ [] ∧ rest.all Char.isDigit then some (digitsVal rest) else none
  | '-' :: rest =>
      if rest ≠ [] ∧ rest.all Char.isDigit then some (-(digitsVal rest : Int)) else none
  | _ =>
      if cs.all Char.isDigit then some (digitsVal cs) else none

/-- Parse the unsigned part of a decimal literal `digits [. digits]
[(e|E) [sign] digits]` into a rational: the mantissa digits form an
integer `m` with `fracLen` of them after the point, and the value is
`m * 10 ^ (exp - fracLen)`, built with `mkRat` so the result is exact.
Returns `none` if the shape is wrong. -/
def parseDecimalBody (cs : List Char) : Option ℚ :=
  -- split off an optional exponent part
  let (mant, expPart) :=
    match cs.span (fun c => c ≠ 'e' ∧ c ≠ 'E') with
    | (m, []) => (m, none)
    | (m, _ :: e) => (m, some e)
  -- parse the exponent
  let expVal : Option Int :=
    match expPart with
    | none => some 0
    | some e =>
        match e with
        | '+' :: d => if d ≠ [] ∧ d.all Char.isDigit then some (digitsVal d) else none
        | '-' :: d => if d ≠ [] ∧ d.all Char.isDigit then some (-(digitsVal d : Int)) else none
        | d => if d ≠ [] ∧ d.all Char.isDigit then some (digitsVal d) else none
  -- parse the mantissa `digits [. digits]` (at least one digit overall)
  let mantParts : Option (Nat × Nat) :=
    match mant.span (· ≠ '.') with
    | (ip, []) =>
        if ip ≠ [] ∧ ip.all Char.isDigit then some (digitsVal ip, 0) else none
    | (ip, _ :: fp) =>
        if (ip.all Char.isDigit) ∧ (fp.all Char.isDigit) ∧ (ip ≠ [] ∨ fp ≠ []) then
          some (digitsVal (ip ++ fp), fp.length)
        else none
  match mantParts, expVal with
  | some (m, fracLen), some e =>
      let scale : Int := e - (fracLen : Int)
      if 0 ≤ scale then some (mkRat ((m * 10 ^ scale.toNat : Nat) : Int) 1)
      else some (mkRat (m : Int) (10 ^ (-scale).toNat))
  | _, _ => none

/-- Python `float(s)` on a string: optional surrounding whitespace,
optional sign, decimal mantissa with optional fraction and exponent.
Returns `none` where Python raises `ValueError`.  (Non-finite literals
`inf`/`nan` and digit-group underscores are not modelled; no command in
this program is specified over them.) -/
def pyFloat? (s : String) : Option ℚ :=
  let cs := (pyStrip s).data
  match cs with
  | '+' :: rest => parseDecimalBody rest
  | '-' :: rest => (parseDecimalBody rest).map Neg.neg
  | _ => parseDecimalBody cs

/-- Python `int(x)` on a float: truncation toward zero.  On a rational
in lowest terms (positive denominator) this is T-division of the
numerator by the denominator. -/
def pyTrunc (q : ℚ) : Int :=
  Int.tdiv q.num (q.den : Int)

/-- Python `min(a, b)`: the smaller argument, the first on ties. -/
def pyMin (a b : ℚ) : ℚ :=
  if b < a then b else a

/-- Python `max(a, b)`: the larger argument, the first on ties. -/
def pyMax (a b : ℚ) : ℚ :=
  if a < b then b else a

/-- Python `max(lo, min(v, hi))`, the clamping idiom used throughout the
command handlers. -/
def pyClamp (lo hi v : ℚ) : ℚ :=
  pyMax lo (pyMin v hi)

/-- Python `max(0, min(v, hi))` on integers (used by `set_slice`). -/
def pyClampInt (hi v : Int) : Int :=
  if 0 < (if hi < v then hi else v) then (if hi < v then hi else v) else 0

/-- Splitting worker for a one-character separator: accumulates the
current field (reversed) and closes it at each separator. -/
def splitCharAux (sep : Char) : List Char → List Char → List (List Char)
  | [], acc => [acc.reverse]
  | c :: rest, acc =>
      if c = sep then acc.reverse :: splitCharAux sep rest []
      else splitCharAux sep rest (c :: acc)

/-- Python `s.split(sep)` for a one-character separator; `"".split(",")`
is `[""]`, as in Python. -/
def pySplit (s : String) (sep : Char) : List String :=
  (splitCharAux sep s.data []).map (fun cs => ⟨cs⟩)

end ThreeDViewer

namespace ThreeDViewer

/-! ## Data model

State touched by the command handlers: `glm.vec3` clip bounds, the
arcball `Camera`, and the `AppCore` context object handed to every
handler (spec §3, §4.5; `app_core.py`). -/

/-- `glm.vec3` with exact rational components. -/
structure Vec3 where
  x : ℚ
  y : ℚ
  z : ℚ
deriving Repr, DecidableEq

/-- Scalar multiple of a `glm.vec3` (used by `get_box_size() * 0.5`). -/
def vecScale (k : ℚ) (v : Vec3) : Vec3 :=
  ⟨k * v.x, k * v.y, k * v.z⟩

/-- `camera.py` `Camera`.  The quaternion `orientation` is abstracted as
the journal of arcball `rotate` drags applied since the last reset (the
claims under study depend only on whether and when camera state is
written, never on the trigonometric content of a rotation); derived
vectors recomputed by `update_camera_vectors` are pure functions of the
fields below and are not duplicated in the state. -/
structure Camera where
  fov : ℚ
  radius : ℚ
  sensitivity : ℚ
  zoom_sensitivity : ℚ
  target : Vec3
  /-- journal of `rotate(prev_x, prev_y, curr_x, curr_y)` calls. -/
  orientation : List (ℚ × ℚ × ℚ × ℚ)

/-- `Camera.rotate` (`camera.py` line 68): a drag whose endpoints
coincide returns immediately without touching state; otherwise the
orientation is updated (journalled). -/
def Camera.rotate (c : Camera) (prev_x prev_y curr_x curr_y : ℚ) : Camera :=
  if prev_x = curr_x ∧ prev_y = curr_y then c
  else { c with orientation := (prev_x, prev_y, curr_x, curr_y) :: c.orientation }

/-- `Camera.process_scroll` (`camera.py` lines 103-108). -/
def Camera.process_scroll (c : Camera) (yoffset : ℚ) : Camera :=
  let r := c.radius - yoffset * c.zoom_sensitivity
  let r := if r < mkRat 1 10 then mkRat 1 10 else r
  let r := if r > 20 then 20 else r
  { c with radius := r }

/-- Initial camera of `AppCore.__init__`:
`Camera(target=(0.5, 0.5, 0.5))`. -/
def cameraInit : Camera where
  fov := 45
  radius := 3
  sensitivity := 3
  zoom_sensitivity := mkRat 1 10
  target := ⟨mkRat 1 2, mkRat 1 2, mkRat 1 2⟩
  orientation := []

/-- The mutable application context (`app_core.py` `AppCore`) restricted
to the fields the ZMQ command path reads or writes, plus two oracle
fields standing for the out-of-scope collaborators (file/image I/O and
the natural-language interpreter, spec §1):

* `load_ok path` — whether `load_dataset(path)` succeeds;
* `exec_text text` — the `(success, message)` result of
  `execute_command_text`.

`volume_dims0` is `volume_renderer.volume_dims[0]`, the `(W, H, D)`
extent of the primary volume.  On a successful load the dataset path is
recorded; the loader's GL-side state updates (texture upload, camera
refit) are out of scope and not modelled. -/
structure AppCore where
  current_dataset_path : Option String
  slice_indices : Int × Int × Int
  volume_density : ℚ
  volume_threshold : ℚ
  current_tf_name : String
  has_overlay : Bool
  overlay_density : ℚ
  overlay_threshold : ℚ
  overlay_tf_name : String
  specular_intensity : ℚ
  shininess : ℚ
  gradient_weight : ℚ
  sampling_rate : ℚ
  lighting_mode : Int
  lighting_modes : List String
  tf_names : List String
  rendering_mode : Int
  overlay_rendering_mode : Int
  render_modes : List String
  clip_min : Vec3
  clip_max : Vec3
  camera : Camera
  volume_dims0 : Int × Int × Int
  load_ok : String → Bool
  exec_text : String → Bool × String

/-- `AppCore.__init__` (`app_core.py` lines 12-66), with the three
oracles instantiated to the inert environment (no dataset loads, no
progress, interpreter always fails). -/
def appCoreInit : AppCore where
  current_dataset_path := none
  slice_indices := (0, 0, 0)
  volume_density := 50
  volume_threshold := mkRat 1 20
  current_tf_name := "grayscale"
  has_overlay := false
  overlay_density := 50
  overlay_threshold := mkRat 1 20
  overlay_tf_name := "plasma"
  specular_intensity := mkRat 1 2
  shininess := 32
  gradient_weight := 10
  sampling_rate := 1
  lighting_mode := 0
  lighting_modes := ["Fixed", "Headlamp"]
  tf_names := ["grayscale", "viridis", "plasma", "medical", "rainbow",
               "ct_bone", "ct_soft_tissue", "ct_muscle", "ct_lung",
               "cool_warm", "ct_sandstone", "ct_body"]
  rendering_mode := 1
  overlay_rendering_mode := 1
  render_modes := ["MIP", "Volume Rendering", "Cinematic Rendering",
                   "MIDA Rendering", "Shaded Volume", "Edge Enhanced"]
  clip_min := ⟨0, 0, 0⟩
  clip_max := ⟨1, 1, 1⟩
  camera := cameraInit
  volume_dims0 := (0, 0, 0)
  load_ok := fun _ => false
  exec_text := fun _ => (false, "")

/-- `AppCore.set_rendering_mode` (`app_core.py` lines 74-79). -/
def AppCore.set_rendering_mode (core : AppCore) (index : Int) (slot : Int) : AppCore :=
  if 0 ≤ index ∧ index < (core.render_modes.length : Int) then
    if slot = 0 then { core with rendering_mode := index }
    else { core with overlay_rendering_mode := index }
  else core

/-- `AppCore.set_transfer_function` (`app_core.py` lines 143-149); the
GL texture refresh `update_tf_texture` is out of scope. -/
def AppCore.set_transfer_function (core : AppCore) (name : String) (slot : Int) : AppCore :=
  if name ∈ core.tf_names then
    if slot = 0 then { core with current_tf_name := name }
    else { core with overlay_tf_name := name }
  else core

/-- `AppCore.get_box_size` for slot 0 (`app_core.py` lines 137-141). -/
def AppCore.get_box_size (core : AppCore) : Vec3 :=
  let (w, h, d) := core.volume_dims0
  if w = 0 then ⟨1, 1, 1⟩
  else
    let m : ℚ := max (w : ℚ) (max (h : ℚ) (d : ℚ))
    ⟨(w : ℚ) / m, (h : ℚ) / m, (d : ℚ) / m⟩

/-- `AppCore.load_dataset` (`app_core.py` lines 101-134), abstracted to
its observable outcome: success is decided by the `load_ok` oracle, and
on success the dataset path is recorded (the loader's GL texture and
camera-refit side effects are out of scope, spec §1). -/
def AppCore.load_dataset (core : AppCore) (path : String) : AppCore × Bool :=
  if core.load_ok path then
    ({ core with current_dataset_path := some path }, true)
  else (core, false)

end ThreeDViewer

namespace ThreeDViewer

/-! ## Wire data and reply model -/

/-- One received command dict (`command_data` in the source), i.e. the
decoded JSON envelope of spec §6.  Absent keys are `none`; `dict.get`
defaults are applied at each use site, as in the source.  Arguments are
carried as wire strings (spec §3: `arg1`/`arg2` are strings). -/
structure CommandData where
  command : Option String := none
  arg1 : Option String := none
  arg2 : Option String := none
  component : Option String := none
  comp_phys : Option String := none
  sender : Option String := none
  comp_type : Option String := none
  UUID : Option String := none
  uuid : Option String := none
  tick_count : Option Int := none
deriving Repr, DecidableEq

/-- A Python exception escaping a handler or slot: `int(...)` conversion
of a slot argument, list indexing, or a call whose keyword argument does
not exist in the callee's signature (`TypeError: ... got an unexpected
keyword argument ...`, raised at the call site before the callee body
runs). -/
inductive PyExc where
  | valueErrorInt (literal : String)
  | indexError
  | typeErrorKeyword (kw : String)
deriving Repr, DecidableEq

/-- Reply/message texts: one constructor per f-string template of the
source, carrying the interpolated values. -/
inductive Msg where
  -- zmq_command_processor.py
  | errNoPath
  | loadedFrom (path : String)
  | failedLoad (path : String)
  | unknownMode (name : String) (valid : List String)
  | modeSet (target : String) (modeUpper : String)
  | unknownTF (name : String) (valid : List String)
  | tfSet (target : String) (name : String)
  | invalidThreshold
  | thresholdSet (target : String) (value : ℚ)
  | invalidDensity
  | densitySet (target : String) (value : ℚ)
  | invalidRotation
  | rotated (axisUpper : String) (degrees : ℚ)
  | invalidZoom
  | zoomed (value : ℚ)
  | cameraReset
  | invalidFov
  | fovSet (value : ℚ)
  | invalidSliceAxis (axis : String)
  | invalidSliceValue (valueStr : String)
  | sliceSet (axisUpper : String) (value : Int)
  | unknownLighting (name : String) (valid : List String)
  | lightingSet (name : String)
  | invalidQuality
  | qualitySet (value : ℚ)
  | invalidCropRange (rangeStr : String)
  | invalidCropAxis (axis : String)
  | cropSet (axisUpper : String) (cmin cmax : ℚ)
  | invalidSpecular
  | specularSet (value : ℚ)
  | invalidShininess
  | shininessSet (value : ℚ)
  | invalidGradientWeight
  | gradientWeightSet (value : ℚ)
  | statusRetrieved
  | errException (e : PyExc)
  | unknownCommand (cmd : String)
  -- zmq_client.py _handle_command
  | commandReceived
  | loadingDataset
  | settingTF
  | executingAI
  | errNoTFName
  | errNoCmdText
  -- 3dviewer_gui.py main-thread slots
  | progressText (text : String)
  | guiLoaded (path : String)
  | guiFailedLoad (path : String)
  | unknownTransferFunction (name : String)
  | executingAIMain
  | execResult (text : String)
deriving Repr, DecidableEq

/-- The structured snapshot returned by `get_status`. -/
structure StatusData where
  rendering_mode : String
  transfer_function : String
  threshold : ℚ
  density : ℚ
  slice_indices : Int × Int × Int
  lighting_mode : String
  quality : ℚ
  fov : ℚ
  has_data : Bool
  dataset_path : Option String
deriving Repr, DecidableEq

/-- A handler result dict: `{"success": ..., "message": ...}` with an
optional `"data"` entry (only `get_status` sets it). -/
structure RDict where
  success : Bool
  message : Msg
  data : Option StatusData := none
deriving Repr, DecidableEq

/-- Python `str.upper()` (ASCII). -/
def pyUpper (s : String) : String :=
  ⟨s.data.map Char.toUpper⟩

/-- Component of an `(x, y, z)` triple at a Python index `0`/`1`/`2`. -/
def tripleGet (t : Int × Int × Int) : Nat → Int
  | 0 => t.1
  | 1 => t.2.1
  | _ => t.2.2

/-- Write one component of an `(x, y, z)` triple at index `0`/`1`/`2`. -/
def tripleSet (t : Int × Int × Int) (i : Nat) (v : Int) : Int × Int × Int :=
  match i with
  | 0 => (v, t.2.1, t.2.2)
  | 1 => (t.1, v, t.2.2)
  | _ => (t.1, t.2.1, v)

/-- Python list indexing `l[i]` on a list of strings, with negative-index
wrap-around; raises `IndexError` out of range. -/
def pyIndex (l : List String) (i : Int) : Except PyExc String :=
  let j := if i < 0 then i + (l.length : Int) else i
  if h : 0 ≤ j ∧ j.toNat < l.length then .ok (l.get ⟨j.toNat, h.2⟩)
  else .error .indexError

/-- The slot idiom `int(data.get("arg2", 0) or 0)`: an absent or empty
argument is slot `0`; a non-empty argument goes through `int(...)`,
raising `ValueError` on a non-integer literal (this raise is *not*
caught inside the handlers that use it). -/
def slotArg (arg2 : Option String) : Except PyExc Int :=
  match arg2 with
  | none => .ok 0
  | some s =>
      if s = "" then .ok 0
      else
        match pyInt? s with
        | some n => .ok n
        | none => .error (.valueErrorInt s)

/-- The idiom `float(data.get("arg1", dflt))` wrapped in
`try/except ValueError`: an absent argument converts the numeric default
(always succeeds); a present string goes through `float(...)`. -/
def floatArgOr (a : Option String) (dflt : ℚ) : Option ℚ :=
  match a with
  | none => some dflt
  | some s => pyFloat? s

/-- A registered command handler: runs against the `AppCore` context and
either raises (`Except.error`) or returns the updated context and a
result dict.  Every raise point in the source precedes all state writes,
so the error branch carries no state. -/
abbrev Handler := AppCore → CommandData → Except PyExc (AppCore × RDict)

namespace ZMQCommandProcessor

/-- `_cmd_load_data` (`zmq_command_processor.py` lines 102-111). -/
def _cmd_load_data : Handler := fun core d =>
  let path := d.arg1.getD ""
  if path = "" then
    .ok (core, ⟨false, .errNoPath, none⟩)
  else
    let (core2, success) := core.load_dataset path
    if success then
      .ok (core2, ⟨true, .loadedFrom path, none⟩)
    else
      .ok (core2, ⟨false, .failedLoad path, none⟩)

/-- The rendering-mode table of `_cmd_set_rendering_mode`. -/
def modeMap : List (String × Int) :=
  [("mip", 0), ("volume", 1), ("cinematic", 2), ("mida", 3), ("shaded", 4), ("edge", 5)]

/-- `_cmd_set_rendering_mode` (lines 113-124). -/
def _cmd_set_rendering_mode : Handler := fun core d =>
  let mode_name := pyLower (d.arg1.getD "")
  match slotArg d.arg2 with
  | .error e => .error e
  | .ok slot =>
    match modeMap.lookup mode_name with
    | none => .ok (core, ⟨false, .unknownMode mode_name (modeMap.map Prod.fst), none⟩)
    | some idx =>
        let core2 := core.set_rendering_mode idx slot
        let target := if slot = 1 then "Overlay" else "Primary"
        .ok (core2, ⟨true, .modeSet target (pyUpper mode_name), none⟩)

/-- `_cmd_set_transfer_function` (lines 126-136). -/
def _cmd_set_transfer_function : Handler := fun core d =>
  let tf_name := pyLower (d.arg1.getD "")
  match slotArg d.arg2 with
  | .error e => .error e
  | .ok slot =>
    if tf_name ∈ core.tf_names then
      let core2 := core.set_transfer_function tf_name slot
      let target := if slot = 1 then "Overlay" else "Primary"
      .ok (core2, ⟨true, .tfSet target tf_name, none⟩)
    else
      .ok (core, ⟨false, .unknownTF tf_name core.tf_names, none⟩)

/-- `_cmd_set_threshold` (lines 138-153). -/
def _cmd_set_threshold : Handler := fun core d =>
  match floatArgOr d.arg1 (mkRat 1 20) with
  | none => .ok (core, ⟨false, .invalidThreshold, none⟩)
  | some value =>
      match slotArg d.arg2 with
      | .error e => .error e
      | .ok slot =>
        let value := pyClamp 0 1 value
        if slot = 1 then
          .ok ({ core with overlay_threshold := value }, ⟨true, .thresholdSet "Overlay" value, none⟩)
        else
          .ok ({ core with volume_threshold := value }, ⟨true, .thresholdSet "Primary" value, none⟩)

/-- `_cmd_set_density` (lines 155-170). -/
def _cmd_set_density : Handler := fun core d =>
  match floatArgOr d.arg1 50 with
  | none => .ok (core, ⟨false, .invalidDensity, none⟩)
  | some value =>
      match slotArg d.arg2 with
      | .error e => .error e
      | .ok slot =>
        let value := pyClamp (mkRat 1 10) 500 value
        if slot = 1 then
          .ok ({ core with overlay_density := value }, ⟨true, .densitySet "Overlay" value, none⟩)
        else
          .ok ({ core with volume_density := value }, ⟨true, .densitySet "Primary" value, none⟩)

/-- The degrees argument of `_cmd_rotate`:
`float(data.get("arg2", 0) or data.get("arg1", 0))` — a falsy (absent or
empty) `arg2` falls back to `data.get("arg1", 0)`: when `arg1` is present
Python converts *that very string*, so a present-but-empty `arg1` runs
`float("")` and raises `ValueError`; only an absent `arg1` becomes
`float(0)`, which always succeeds. -/
def rotateDegreesArg (d : CommandData) : Option ℚ :=
  let fallback : Option ℚ :=
    match d.arg1 with
    | some t => pyFloat? t
    | none => some 0
  match d.arg2 with
  | some s => if s = "" then fallback else pyFloat? s
  | none => fallback

/-- `_cmd_rotate` (lines 172-189): axis `"y"` and `"x"` rotate the
corresponding arcball direction; *any other axis string falls into the
default branch, rotating Y, and still reports success*. -/
def _cmd_rotate : Handler := fun core d =>
  let axis := pyLower (d.arg1.getD "y")
  match rotateDegreesArg d with
  | none => .ok (core, ⟨false, .invalidRotation, none⟩)
  | some degrees =>
      let drag_amount := degrees / 180
      let cam :=
        if axis = "y" then core.camera.rotate 0 0 (-drag_amount) 0
        else if axis = "x" then core.camera.rotate 0 0 0 (-drag_amount)
        else core.camera.rotate 0 0 (-drag_amount) 0
      .ok ({ core with camera := cam }, ⟨true, .rotated (pyUpper axis) degrees, none⟩)

/-- `_cmd_zoom` (lines 191-199). -/
def _cmd_zoom : Handler := fun core d =>
  match floatArgOr d.arg1 0 with
  | none => .ok (core, ⟨false, .invalidZoom, none⟩)
  | some value =>
      .ok ({ core with camera := core.camera.process_scroll (value * 5) },
           ⟨true, .zoomed value, none⟩)

/-- `_cmd_reset_camera` (lines 201-208). -/
def _cmd_reset_camera : Handler := fun core d =>
  let cam := { core.camera with
                radius := 3
                target := vecScale (mkRat 1 2) core.get_box_size
                orientation := [] }
  .ok ({ core with camera := cam }, ⟨true, .cameraReset, none⟩)

/-- `_cmd_set_fov` (lines 210-218); the reply reports `camera.fov` read
back after the clamped assignment. -/
def _cmd_set_fov : Handler := fun core d =>
  match floatArgOr d.arg1 45 with
  | none => .ok (core, ⟨false, .invalidFov, none⟩)
  | some value =>
      let newFov := pyClamp 1 160 value
      .ok ({ core with camera := { core.camera with fov := newFov } },
           ⟨true, .fovSet newFov, none⟩)

/-- The axis table of `_cmd_set_slice` and `_cmd_crop`. -/
def axis_map : List (String × Nat) :=
  [("x", 0), ("y", 1), ("z", 2)]

/-- `_cmd_set_slice` (lines 220-243): percent form resolves against the
current primary-volume extent along the axis; the result is truncated to
int and clamped to `[0, extent-1]`. -/
def _cmd_set_slice : Handler := fun core d =>
  let axis := pyLower (d.arg1.getD "z")
  let value_str := d.arg2.getD "50%"
  match axis_map.lookup axis with
  | none => .ok (core, ⟨false, .invalidSliceAxis axis, none⟩)
  | some axis_idx =>
      let dims := tripleGet core.volume_dims0 axis_idx
      let parsed : Option Int :=
        if pyEndsWith value_str "%" then
          (pyFloat? (pyRstripPercent value_str)).map
            (fun percent => pyTrunc ((percent / 100) * ((dims : ℚ) - 1)))
        else
          (pyFloat? value_str).map pyTrunc
      match parsed with
      | none => .ok (core, ⟨false, .invalidSliceValue value_str, none⟩)
      | some value =>
          let value := pyClampInt (dims - 1) value
          .ok ({ core with slice_indices := tripleSet core.slice_indices axis_idx value },
               ⟨true, .sliceSet (pyUpper axis) value, none⟩)

/-- The lighting table of `_cmd_set_lighting`. -/
def lightingMap : List (String × Int) :=
  [("fixed", 0), ("headlamp", 1)]

/-- `_cmd_set_lighting` (lines 245-254). -/
def _cmd_set_lighting : Handler := fun core d =>
  let mode_name := pyLower (d.arg1.getD "")
  match lightingMap.lookup mode_name with
  | none => .ok (core, ⟨false, .unknownLighting mode_name (lightingMap.map Prod.fst), none⟩)
  | some idx =>
      .ok ({ core with lighting_mode := idx }, ⟨true, .lightingSet mode_name, none⟩)

/-- `_cmd_set_quality` (lines 256-264). -/
def _cmd_set_quality : Handler := fun core d =>
  match floatArgOr d.arg1 1 with
  | none => .ok (core, ⟨false, .invalidQuality, none⟩)
  | some value =>
      let rate := pyClamp (mkRat 1 10) 5 value
      .ok ({ core with sampling_rate := rate }, ⟨true, .qualitySet rate, none⟩)

/-- The `'min,max'` parse of `_cmd_crop`: `parts = range_str.split(",")`,
`c_min = float(parts[0])`, `c_max = float(parts[1]) if len(parts) > 1
else 1.0`, with `ValueError`/`IndexError` turned into the error reply. -/
def cropRangeArg (range_str : String) : Option (ℚ × ℚ) :=
  match pySplit range_str ',' with
  | [] => none
  | [p0] => (pyFloat? p0).map (fun a => (a, 1))
  | p0 :: p1 :: _ =>
      match pyFloat? p0, pyFloat? p1 with
      | some a, some b => some (a, b)
      | _, _ => none

/-- `_cmd_crop` (lines 266-287): the parsed bounds are assigned to the
clip range of the chosen axis *exactly as parsed* — the source applies
no clamping to them. -/
def _cmd_crop : Handler := fun core d =>
  let axis := pyLower (d.arg1.getD "x")
  let range_str := d.arg2.getD "0.0,1.0"
  match cropRangeArg range_str with
  | none => .ok (core, ⟨false, .invalidCropRange range_str, none⟩)
  | some (c_min, c_max) =>
      if axis = "x" then
        .ok ({ core with clip_min := { core.clip_min with x := c_min },
                         clip_max := { core.clip_max with x := c_max } },
             ⟨true, .cropSet (pyUpper axis) c_min c_max, none⟩)
      else if axis = "y" then
        .ok ({ core with clip_min := { core.clip_min with y := c_min },
                         clip_max := { core.clip_max with y := c_max } },
             ⟨true, .cropSet (pyUpper axis) c_min c_max, none⟩)
      else if axis = "z" then
        .ok ({ core with clip_min := { core.clip_min with z := c_min },
                         clip_max := { core.clip_max with z := c_max } },
             ⟨true, .cropSet (pyUpper axis) c_min c_max, none⟩)
      else
        .ok (core, ⟨false, .invalidCropAxis axis, none⟩)

/-- `_cmd_set_specular` (lines 289-297). -/
def _cmd_set_specular : Handler := fun core d =>
  match floatArgOr d.arg1 (mkRat 1 2) with
  | none => .ok (core, ⟨false, .invalidSpecular, none⟩)
  | some value =>
      let v := pyClamp 0 2 value
      .ok ({ core with specular_intensity := v }, ⟨true, .specularSet v, none⟩)

/-- `_cmd_set_shininess` (lines 299-307). -/
def _cmd_set_shininess : Handler := fun core d =>
  match floatArgOr d.arg1 32 with
  | none => .ok (core, ⟨false, .invalidShininess, none⟩)
  | some value =>
      let v := pyClamp 1 128 value
      .ok ({ core with shininess := v }, ⟨true, .shininessSet v, none⟩)

/-- `_cmd_set_gradient_weight` (lines 309-317). -/
def _cmd_set_gradient_weight : Handler := fun core d =>
  match floatArgOr d.arg1 10 with
  | none => .ok (core, ⟨false, .invalidGradientWeight, none⟩)
  | some value =>
      let v := pyClamp 0 50 value
      .ok ({ core with gradient_weight := v }, ⟨true, .gradientWeightSet v, none⟩)

/-- `_cmd_get_status` (lines 319-333). -/
def _cmd_get_status : Handler := fun core d =>
  match pyIndex core.render_modes core.rendering_mode with
  | .error e => .error e
  | .ok rm =>
  match pyIndex core.lighting_modes core.lighting_mode with
  | .error e => .error e
  | .ok lm =>
  .ok (core, ⟨true, .statusRetrieved,
    some { rendering_mode := rm
           transfer_function := core.current_tf_name
           threshold := core.volume_threshold
           density := core.volume_density
           slice_indices := core.slice_indices
           lighting_mode := lm
           quality := core.sampling_rate
           fov := core.camera.fov
           has_data := core.current_dataset_path.isSome
           dataset_path := core.current_dataset_path }⟩)

/-- `_register_commands` (lines 35-70): the command table. -/
def commandsList : List (String × Handler) :=
  [("load_data", _cmd_load_data),
   ("set_rendering_mode", _cmd_set_rendering_mode),
   ("set_transfer_function", _cmd_set_transfer_function),
   ("set_threshold", _cmd_set_threshold),
   ("set_density", _cmd_set_density),
   ("rotate", _cmd_rotate),
   ("zoom", _cmd_zoom),
   ("reset_camera", _cmd_reset_camera),
   ("set_fov", _cmd_set_fov),
   ("set_slice", _cmd_set_slice),
   ("set_lighting", _cmd_set_lighting),
   ("set_quality", _cmd_set_quality),
   ("crop", _cmd_crop),
   ("set_specular", _cmd_set_specular),
   ("set_shininess", _cmd_set_shininess),
   ("set_gradient_weight", _cmd_set_gradient_weight),
   ("get_status", _cmd_get_status)]

/-- `self.commands.get(cmd)`. -/
def commandsLookup (cmd : String) : Option Handler :=
  commandsList.lookup cmd

/-- `ZMQCommandProcessor.process` (lines 72-92): look up the raw command
name; an unknown command is a failure dict; an exception escaping the
handler is caught and converted to `ERROR: {str(e)}` with the context
left as the handler left it (every raise in the handlers precedes any
state write). -/
def process (core : AppCore) (d : CommandData) : AppCore × RDict :=
  let cmd := d.command.getD ""
  match commandsLookup cmd with
  | some h =>
      match h core d with
      | .ok r => r
      | .error e => (core, ⟨false, .errException e, none⟩)
  | none => (core, ⟨false, .unknownCommand cmd, none⟩)

end ZMQCommandProcessor

end ThreeDViewer

namespace ThreeDViewer

/-! ## Component client (`zmq_client.py`) and main-thread slots -/

/-- One reply dict enqueued onto `outgoing_queue` by the feedback helper
of `_handle_command` (`zmq_client.py` lines 93-106) or by the
`send_zmq_feedback` helpers of the GUI slots (which additionally set a
`sender` key). -/
structure ReplyMsg where
  component : String
  comp_phys : String
  command : String
  arg1 : String
  arg2 : String
  reply : Msg
  replyType : String
  comp_type : String
  tick_count : Int
  UUID : String
  sender : Option String := none
deriving Repr, DecidableEq

/-- A reply type is terminal exactly when it is `ACK` or `ERROR`
(spec §3, §4.7). -/
def isTerminal (replyType : String) : Bool :=
  replyType = "ACK" || replyType = "ERROR"

/-- The `metadata` dict built by `_handle_command` (lines 112-122) and
carried on the cross-thread signals. -/
structure Metadata where
  command : String
  raw_command : String
  arg1 : String
  arg2 : String
  UUID : String
  comp_phys : String
  component : String
  comp_type : String
  tick_count : Int
deriving Repr, DecidableEq

/-- The cross-thread Qt signals emitted by `_handle_command`; the
`sig_command_processed` signal is emitted but not connected to any slot
in `3dviewer_gui.py`. -/
inductive Sig where
  | loadData (md : Metadata) (path : String)
  | setTF (md : Metadata) (name : String) (slot : Int)
  | execCommand (md : Metadata) (text : String)
  | commandProcessed (cmd : String) (success : Bool) (msg : Msg)

/-- The return value of `_handle_command` (a plain status string in the
source, consumed by nobody). -/
inductive HRet where
  | success
  | errorText (s : String)
  | errorMsg (m : Msg)

/-- `msg_uuid = command_data.get("UUID", "") or command_data.get("uuid", "")`
(line 84). -/
def msgUuid (d : CommandData) : String :=
  let u := d.UUID.getD ""
  if u = "" then d.uuid.getD "" else u

/-- The command-name normalization of `_handle_command` (`zmq_client.py`
lines 75-76 and 87-88): strip and lowercase the raw name, then map the
accepted `load`/`set tf` variants onto `load_data` and
`set_transfer_function`. -/
def normalizedCmd (d : CommandData) : String :=
  let cmd0 := pyLower (pyStrip (d.command.getD ""))
  if cmd0 = "load data" ∨ cmd0 = "load" then "load_data"
  else if cmd0 = "set tf" ∨ cmd0 = "set_tf" ∨ cmd0 = "set transfer function" then
    "set_transfer_function"
  else cmd0

/-- `ViewerZMQClient._handle_command` (`zmq_client.py` lines 68-181):
sends an immediate `RCV`, routes `load_data` / `set_transfer_function` /
`exec`/`command` to the main thread via signals (after argument-presence
checks), and runs every other command inline through
`ZMQCommandProcessor.process`, enqueuing the terminal `ACK`/`ERROR`.
Returns the updated context, the replies enqueued (in order), the
signals emitted, and the status string. -/
def handleCommand (core : AppCore) (d : CommandData) :
    AppCore × List ReplyMsg × List Sig × HRet :=
  let raw_cmd := d.command.getD ""
  let arg1 := d.arg1.getD ""
  let arg2 := d.arg2.getD ""
  let comp_type := d.comp_type.getD "other"
  let comp_phys := d.comp_phys.getD "3dviewer"
  let component := d.component.getD "3dviewer"
  let tick_count := d.tick_count.getD 0
  let uuid := msgUuid d
  let cmd := normalizedCmd d
  let fb : Msg → String → ReplyMsg := fun m rt =>
    { component := component, comp_phys := comp_phys, command := raw_cmd,
      arg1 := arg1, arg2 := arg2, reply := m, replyType := rt,
      comp_type := comp_type, tick_count := tick_count, UUID := uuid }
  let rcv := fb .commandReceived "RCV"
  let md : Metadata :=
    { command := cmd, raw_command := raw_cmd, arg1 := arg1, arg2 := arg2,
      UUID := uuid, comp_phys := comp_phys, component := component,
      comp_type := comp_type, tick_count := tick_count }
  if cmd = "load_data" then
    if arg1 = "" then
      (core, [rcv, fb .errNoPath "ERROR"], [],
       .errorText "ERROR: load_data requires a path argument")
    else
      (core, [rcv, fb .loadingDataset "FDB"], [.loadData md arg1], .success)
  else if cmd = "set_transfer_function" then
    if arg1 = "" then
      (core, [rcv, fb .errNoTFName "ERROR"], [], .errorText "ERROR: Missing TF name")
    else
      let slot_val : Int :=
        if arg2 ≠ "" ∧ pyIsDigit arg2 then (digitsVal arg2.data : Int) else 0
      (core, [rcv, fb .settingTF "FDB"], [.setTF md arg1 slot_val], .success)
  else if cmd = "exec" ∨ cmd = "command" then
    if arg1 = "" then
      (core, [rcv, fb .errNoCmdText "ERROR"], [], .errorText "ERROR: Missing command text")
    else
      (core, [rcv, fb .executingAI "FDB"], [.execCommand md arg1], .success)
  else
    let (core2, r) := ZMQCommandProcessor.process core d
    let sigs := [Sig.commandProcessed cmd r.success r.message]
    if r.success then
      (core2, [rcv, fb r.message "ACK"], sigs, .success)
    else
      (core2, [rcv, fb r.message "ERROR"], sigs, .errorMsg r.message)

/-- The reply dict built by the `send_zmq_feedback` helpers of the GUI
slots (`3dviewer_gui.py` lines 1198-1212 etc.): echoes the signal
metadata and adds `"sender": "3dviewer"`. -/
def guiFeedback (md : Metadata) (uuid : String) (m : Msg) (rt : String) : ReplyMsg :=
  { component := md.component, comp_phys := md.comp_phys,
    command := md.raw_command, arg1 := md.arg1, arg2 := md.arg2,
    reply := m, replyType := rt, comp_type := md.comp_type,
    tick_count := md.tick_count, UUID := uuid, sender := some "3dviewer" }

/-- The call `self.core.load_dataset(path, progress_callback=zmq_progress_cb)`
of `3dviewer_gui.py` line 1218.  `AppCore.load_dataset` (`app_core.py`
line 101) accepts only `folder_path, is_overlay, rescale_range, z_range,
binning_factor, use_8bit`: binding the unknown keyword raises
`TypeError: load_dataset() got an unexpected keyword argument
'progress_callback'` at the call site, before the loader body runs — the
dataset is never loaded and the progress callback is never invoked. -/
def load_dataset_progress_callback_call (core : AppCore) (path : String) :
    Except PyExc (AppCore × Bool) :=
  .error (.typeErrorKeyword "progress_callback")

/-- `handle_zmq_load_data` (`3dviewer_gui.py` lines 1188-1225): the slot
builds its feedback helpers and then calls
`load_dataset(path, progress_callback=...)` outside any `try`.  With the
current `AppCore.load_dataset` signature that call raises `TypeError`
(see `load_dataset_progress_callback_call`), so the slot exits
exceptionally before enqueuing any reply; the terminal-reply code after
the call (lines 1220-1223, `ACK` on success / `ERROR` on failure) is
unreachable. -/
def gui_handle_zmq_load_data (core : AppCore) (md : Metadata) (path : String) :
    Except PyExc (AppCore × List ReplyMsg) :=
  let uuid := md.UUID
  match load_dataset_progress_callback_call core path with
  | .error e => .error e
  | .ok (core2, success) =>
      let message := if success then Msg.guiLoaded path else Msg.guiFailedLoad path
      .ok (core2, [guiFeedback md uuid message (if success then "ACK" else "ERROR")])

/-- `handle_zmq_set_tf` (`3dviewer_gui.py` lines 1227-1272): validates
the name against `tf_names`, applies it on the main thread, and closes
with a single terminal reply. -/
def gui_handle_zmq_set_tf (core : AppCore) (md : Metadata) (name : String) (slot : Int) :
    AppCore × List ReplyMsg :=
  let uuid := md.UUID
  if name ∈ core.tf_names then
    let core2 := core.set_transfer_function name slot
    let target := if slot = 1 then "Overlay" else "Primary"
    (core2, [guiFeedback md uuid (.tfSet target name) "ACK"])
  else
    (core, [guiFeedback md uuid (.unknownTransferFunction name) "ERROR"])

/-- `handle_zmq_exec_command` (`3dviewer_gui.py` lines 1274-1307): sends
an immediate `FDB`, runs the interpreter, and closes with a terminal
reply decided by its success flag. -/
def gui_handle_zmq_exec_command (core : AppCore) (md : Metadata) (text : String) :
    AppCore × List ReplyMsg :=
  let uuid := md.UUID
  let fdb := guiFeedback md uuid .executingAIMain "FDB"
  let (success, message) := core.exec_text text
  (core, [fdb, guiFeedback md uuid (.execResult message) (if success then "ACK" else "ERROR")])

/-- Delivery of one emitted signal to the slot connected to it in
`3dviewer_gui.py` (lines 152-154); `sig_command_processed` has no
connected slot there and produces nothing.  An exception escaping a slot
is *not* converted into a reply: it propagates into the Qt event loop
(under PyQt's unhandled-slot-exception policy the process then
aborts). -/
def runSig (core : AppCore) : Sig → Except PyExc (AppCore × List ReplyMsg)
  | .loadData md path => gui_handle_zmq_load_data core md path
  | .setTF md name slot => .ok (gui_handle_zmq_set_tf core md name slot)
  | .execCommand md text => .ok (gui_handle_zmq_exec_command core md text)
  | .commandProcessed _ _ _ => .ok (core, [])

/-- Deliver a list of signals in emission order, concatenating the
replies each slot enqueues.  An uncaught slot exception stops delivery
(the process aborts) and is reported alongside the replies enqueued up
to that point. -/
def runSigs (core : AppCore) : List Sig → (AppCore × List ReplyMsg) × Option PyExc
  | [] => ((core, []), none)
  | s :: rest =>
      match runSig core s with
      | .error e => ((core, []), some e)
      | .ok (c1, r1) =>
          match runSigs c1 rest with
          | ((c2, r2), exc) => ((c2, r1 ++ r2), exc)

/-- Complete handling of one dispatched envelope by the live composition
(`ViewerZMQClient` wired to `3dviewer_gui.MainWindow`): the replies the
I/O thread enqueues directly, followed by the replies the main-thread
slots enqueue for the signals it emitted, together with the uncaught
exception, if a slot raised one (in which case the process aborts with
only the replies gathered so far on the outbound queue). -/
def systemHandle (core : AppCore) (d : CommandData) :
    (AppCore × List ReplyMsg) × Option PyExc :=
  let (c1, fbs, sigs, _) := handleCommand core d
  match runSigs c1 sigs with
  | ((c2, more), exc) => ((c2, fbs ++ more), exc)

/-! ### The poll-loop filter (`run_zmq`, `zmq_client.py` lines 218-233) -/

/-- One received payload, after the `json.loads` stage: either
undecodable garbage (dropped silently) or a decoded command dict. -/
inductive Wire where
  | garbage (raw : String)
  | envelope (d : CommandData)

/-- The dispatch filter of `run_zmq` (lines 224-226): dispatch exactly
when the wire `component` field equals `physical_name` and the wire
`sender` field differs from `physical_name`. -/
def dispatchAccept (physical_name : String) (d : CommandData) : Bool :=
  (d.component.getD "" = physical_name) && (d.sender.getD "" ≠ physical_name)

/-- The filter as configured by `ViewerZMQClient.start(component_name,
physical_name)`: the `component_name` (logical-address) parameter is not
consulted by `run_zmq` — only `physical_name` is captured by the
closure. -/
def startDispatchAccept (component_name physical_name : String) (d : CommandData) : Bool :=
  dispatchAccept physical_name d

/-- Processing of one received payload by the poll-loop body: decode
failure and filter misses are silent drops; an accepted envelope goes
through `_handle_command` (and, in the live composition, the main-thread
slots, whose uncaught exception — if any — is reported in the second
component). -/
def dispatchStep (physical_name : String) (core : AppCore) (w : Wire) :
    (AppCore × List ReplyMsg) × Option PyExc :=
  match w with
  | .garbage _ => ((core, []), none)
  | .envelope d =>
      if dispatchAccept physical_name d then systemHandle core d
      else ((core, []), none)

/-- The thread state of the `run_zmq` loop: the cooperative `running`
flag, the shared context, and the pending outbound queue. -/
structure ClientState where
  running : Bool
  core : AppCore
  outQueue : List ReplyMsg

/-- One iteration of the `while self.running` poll loop (lines 218-246):
process the received payload, if any (`zmq.Again` delivers `none`), then
fully drain the outbound queue onto the wire.  Returns the new state and
the payloads transmitted this cycle.  No branch of the body modifies the
`running` flag — only `stop()` does.  (An exception escaping a
main-thread slot is exogenous to this body: it aborts the whole process
under PyQt's policy rather than flowing through the loop; see
`dispatchStep`.) -/
def runZmqStep (physical_name : String) (st : ClientState) (w : Option Wire) :
    ClientState × List ReplyMsg :=
  let (core2, produced) :=
    match w with
    | none => (st.core, [])
    | some wire => (dispatchStep physical_name st.core wire).1
  let transmitted := st.outQueue ++ produced
  ({ running := st.running, core := core2, outQueue := [] }, transmitted)

/-! ### The stale `qt_main.py` variant of the load slot -/

/-- The reply dict literal of `qt_main.handle_zmq_load_data`
(lines 750-759): a key set different from the GUI helper — and a
hard-coded `"reply type": "ACK"`. -/
structure QtReplyMsg where
  component : String
  command : String
  UUID : String
  status : String
  message : Msg
  reply : Msg
  sender : String
  replyType : String
deriving Repr, DecidableEq

/-- `payload.split("|", 1)` with the `except ValueError` fallback of
`qt_main.handle_zmq_load_data` (lines 736-740). -/
def pySplitBarOnce (payload : String) : String × String :=
  match pySplit payload '|' with
  | [] => (payload, "")
  | [_] => (payload, "")
  | p :: rest => (p, String.intercalate "|" rest)

/-- `qt_main.handle_zmq_load_data` (`qt_main.py` lines 731-761): the
alternative main-window slot.  It computes `status = "SUCCESS" if
success else "ERROR"` but never uses that variable: the reply dict
hard-codes `"status": "ACK"` and `"reply type": "ACK"` whatever the
outcome of the load. -/
def qt_handle_zmq_load_data (core : AppCore) (payload : String) :
    AppCore × List QtReplyMsg :=
  let (path, uuid) := pySplitBarOnce payload
  let (core2, success) := core.load_dataset path
  let status := if success then "SUCCESS" else "ERROR"
  let message := if success then Msg.guiLoaded path else Msg.guiFailedLoad path
  (core2, [{ component := "3dviewer", command := "load_data", UUID := uuid,
             status := "ACK", message := message, reply := message,
             sender := "3dviewer", replyType := "ACK" }])

end ThreeDViewer

namespace ThreeDViewer

/-! ## Derived notions used by the statements -/

/-- The clip range of the context along a lowercase axis name
(`"x"`/`"y"`/`"z"`). -/
def clipRangeAlong (axis : String) (core : AppCore) : ℚ × ℚ :=
  if axis = "x" then (core.clip_min.x, core.clip_max.x)
  else if axis = "y" then (core.clip_min.y, core.clip_max.y)
  else (core.clip_min.z, core.clip_max.z)

/-- The reply shape required of one conversation (spec §3, §4.7): zero or
more non-terminal replies (`RCV`/`FDB`), then exactly one terminal reply
(`ACK` or `ERROR`) carrying the request's correlation id. -/
def ConversationShape (uuid : String) (rs : List ReplyMsg) : Prop :=
  ∃ pre t, rs = pre ++ [t] ∧ isTerminal t.replyType = true ∧ t.UUID = uuid ∧
    ∀ r ∈ pre, r.replyType = "RCV" ∨ r.replyType = "FDB"

end ThreeDViewer

namespace ThreeDViewer

/-! ## Helper lemmas (shared) -/

theorem conversationShape_single {u : String} (t : ReplyMsg)
    (ht : isTerminal t.replyType = true) (hu : t.UUID = u) :
    ConversationShape u [t] :=
  ⟨[], t, rfl, ht, hu, by simp⟩

theorem conversationShape_append (pre1 : List ReplyMsg)
    (h1 : ∀ x ∈ pre1, x.replyType = "RCV" ∨ x.replyType = "FDB")
    {u : String} {rs : List ReplyMsg} (h : ConversationShape u rs) :
    ConversationShape u (pre1 ++ rs) := by
  obtain ⟨pre, t, hrs, ht, hu, hpre⟩ := h
  refine ⟨pre1 ++ pre, t, ?_, ht, hu, ?_⟩
  · rw [hrs, List.append_assoc]
  · intro x hx
    rcases List.mem_append.mp hx with h' | h'
    · exact h1 x h'
    · exact hpre x h'

theorem nonterm_single {a : ReplyMsg} (ha : a.replyType = "RCV" ∨ a.replyType = "FDB") :
    ∀ x ∈ [a], x.replyType = "RCV" ∨ x.replyType = "FDB" := by
  intro x hx
  simp only [List.mem_singleton] at hx
  subst hx
  exact ha

theorem nonterm_pair {a b : ReplyMsg}
    (ha : a.replyType = "RCV" ∨ a.replyType = "FDB")
    (hb : b.replyType = "RCV" ∨ b.replyType = "FDB") :
    ∀ x ∈ [a, b], x.replyType = "RCV" ∨ x.replyType = "FDB" := by
  intro x hx
  rcases List.mem_cons.mp hx with rfl | hx'
  · exact ha
  · simp only [List.mem_singleton] at hx'
    subst hx'
    exact hb

/-- The `3dviewer_gui` transfer-function slot emits exactly one terminal
reply. -/
theorem gui_set_tf_shape (core : AppCore) (md : Metadata) (name : String) (slot : Int) :
    ConversationShape md.UUID (gui_handle_zmq_set_tf core md name slot).2 := by
  unfold gui_handle_zmq_set_tf
  by_cases hm : name ∈ core.tf_names
  · simp only [hm, if_true]
    exact conversationShape_single _ rfl rfl
  · simp only [hm, if_false]
    exact conversationShape_single _ rfl rfl

/-- The `3dviewer_gui` exec slot emits one `FDB` then one terminal
reply. -/
theorem gui_exec_shape (core : AppCore) (md : Metadata) (text : String) :
    ConversationShape md.UUID (gui_handle_zmq_exec_command core md text).2 := by
  unfold gui_handle_zmq_exec_command
  rcases hx : core.exec_text text with ⟨ok, m⟩
  dsimp only
  refine conversationShape_append [_] (nonterm_single (Or.inr rfl))
    (conversationShape_single _ ?_ rfl)
  cases ok <;> rfl

/-- Handling a dispatched envelope that is *not* routed to the broken
load slot (any command other than a `load_data` with a path) enqueues
replies of the shape: non-terminals (`RCV`/`FDB`) followed by exactly
one terminal carrying the request's correlation id, and no exception
escapes.  A `load_data` with a path is excluded: there the main-thread
slot raises `TypeError` and no terminal is ever enqueued. -/
theorem systemHandle_shape (core : AppCore) (d : CommandData)
    (hnotload : normalizedCmd d ≠ "load_data" ∨ d.arg1.getD "" = "") :
    ConversationShape (msgUuid d) (systemHandle core d).1.2 ∧
    (systemHandle core d).2 = none := by
  unfold systemHandle handleCommand
  rcases hp : ZMQCommandProcessor.process core d with ⟨c2, r⟩
  dsimp only
  split_ifs <;> dsimp only <;>
    simp only [runSigs, runSig, List.append_nil, List.nil_append] <;>
    first
    | exact absurd (by assumption) (hnotload.resolve_right (by assumption))
    | exact ⟨conversationShape_append [_] (nonterm_single (Or.inl rfl))
        (conversationShape_single _ rfl rfl), by trivial⟩
    | exact ⟨conversationShape_append [_, _] (nonterm_pair (Or.inl rfl) (Or.inr rfl))
        (gui_set_tf_shape _ _ _ _), by trivial⟩
    | exact ⟨conversationShape_append [_, _] (nonterm_pair (Or.inl rfl) (Or.inr rfl))
        (gui_exec_shape _ _ _), by trivial⟩

/-! ## Claims -/

/-- **C1**: the claim — exactly one terminal reply per accepted request,
never zero — fails on the live composition: an accepted `load_data`
envelope with a path enqueues `RCV` and `FDB` and *no* terminal at all,
because `handle_zmq_load_data` calls
`load_dataset(path, progress_callback=...)` while `AppCore.load_dataset`
accepts no such keyword, raising `TypeError` before the terminal-reply
code runs.  (Every command not routed to that slot does get exactly one
terminal: `systemHandle_shape`.) -/
theorem load_data_request_gets_no_terminal_reply :
    dispatchAccept "3dviewer"
      { command := some "load_data", arg1 := some "/data/x",
        component := some "3dviewer", sender := some "ctrl",
        UUID := some "u-1" } = true ∧
    ((dispatchStep "3dviewer" appCoreInit
        (.envelope { command := some "load_data", arg1 := some "/data/x",
                     component := some "3dviewer", sender := some "ctrl",
                     UUID := some "u-1" })).1.2.map ReplyMsg.replyType =
      ["RCV", "FDB"]) ∧
    ((dispatchStep "3dviewer" appCoreInit
        (.envelope { command := some "load_data", arg1 := some "/data/x",
                     component := some "3dviewer", sender := some "ctrl",
                     UUID := some "u-1" })).1.2.filter
        (fun x => isTerminal x.replyType) = []) ∧
    (dispatchStep "3dviewer" appCoreInit
        (.envelope { command := some "load_data", arg1 := some "/data/x",
                     component := some "3dviewer", sender := some "ctrl",
                     UUID := some "u-1" })).2 =
      some (.typeErrorKeyword "progress_callback") := by
  decide

/-- **C2** (counterexample): the poll-loop filter compares the wire
`component` field against `physical_name`, not against the
`component_name` (logical address) parameter of `start` — with distinct
logical and physical names, an envelope whose `component` differs from
the logical address is still dispatched and handled. -/
theorem logical_address_filter_counterexample :
    startDispatchAccept "3dviewer-logical" "unit-1"
      { command := some "zoom", arg1 := some "1",
        component := some "unit-1", sender := some "ctrl", UUID := some "u-2" } = true ∧
    ({ command := some "zoom", arg1 := some "1",
       component := some "unit-1", sender := some "ctrl",
       UUID := some "u-2" } : CommandData).component.getD "" ≠ "3dviewer-logical" ∧
    (dispatchStep "unit-1" appCoreInit
      (.envelope { command := some "zoom", arg1 := some "1",
                   component := some "unit-1", sender := some "ctrl",
                   UUID := some "u-2" })).1.2.length = 2 := by
  refine ⟨rfl, by decide, by decide⟩

/-- **C2** (amended): `run_zmq` filters the wire `component` field
against the `physical_name` parameter and ignores `component_name`;
since every call site in the program passes the same string for both
(`"3dviewer"`), an envelope whose `component` field does not match the
component's logical address is never dispatched at those
instantiations. -/
theorem mismatched_component_never_dispatched
    (component_name physical_name : String) (core : AppCore) (d : CommandData)
    (hsite : component_name = physical_name)
    (hmismatch : d.component.getD "" ≠ component_name) :
    startDispatchAccept component_name physical_name d = false ∧
    dispatchStep physical_name core (.envelope d) = ((core, []), none) := by
  subst hsite
  have hacc : dispatchAccept component_name d = false := by
    unfold dispatchAccept
    simp [hmismatch]
  refine ⟨hacc, ?_⟩
  unfold dispatchStep
  simp [hacc]

/-- Witness for the amended C2 at the program's configuration. -/
theorem mismatched_component_never_dispatched_witness :
    ("3dviewer" : String) = "3dviewer" ∧
    ({ command := some "zoom", component := some "someone-else",
       sender := some "ctrl" } : CommandData).component.getD "" ≠ "3dviewer" ∧
    startDispatchAccept "3dviewer" "3dviewer"
      { command := some "zoom", component := some "someone-else",
        sender := some "ctrl" } = false ∧
    dispatchStep "3dviewer" appCoreInit
      (.envelope { command := some "zoom", component := some "someone-else",
                   sender := some "ctrl" }) = ((appCoreInit, []), none) := by
  refine ⟨rfl, by decide, ?_⟩
  exact mismatched_component_never_dispatched "3dviewer" "3dviewer" appCoreInit
    { command := some "zoom", component := some "someone-else", sender := some "ctrl" }
    rfl (by decide)

/-- **C3**: an envelope whose `sender` equals this component's own
physical address is never dispatched to any command handler
(self-echo suppression), even though the relay rebroadcasts every
publish back to the originator. -/
theorem self_echo_never_dispatched
    (physical_name : String) (core : AppCore) (d : CommandData)
    (hself : d.sender.getD "" = physical_name) :
    dispatchAccept physical_name d = false ∧
    dispatchStep physical_name core (.envelope d) = ((core, []), none) := by
  have hacc : dispatchAccept physical_name d = false := by
    unfold dispatchAccept
    simp [hself]
  refine ⟨hacc, ?_⟩
  unfold dispatchStep
  simp [hacc]

/-- Witness for C3: a correctly addressed envelope whose sender is the
component itself (a relay echo) is dropped. -/
theorem self_echo_never_dispatched_witness :
    ({ command := some "zoom", component := some "3dviewer",
       sender := some "3dviewer" } : CommandData).sender.getD "" = "3dviewer" ∧
    dispatchAccept "3dviewer"
      { command := some "zoom", component := some "3dviewer",
        sender := some "3dviewer" } = false ∧
    dispatchStep "3dviewer" appCoreInit
      (.envelope { command := some "zoom", component := some "3dviewer",
                   sender := some "3dviewer" }) = ((appCoreInit, []), none) := by
  refine ⟨rfl, ?_⟩
  exact self_echo_never_dispatched "3dviewer" appCoreInit
    { command := some "zoom", component := some "3dviewer", sender := some "3dviewer" } rfl

/-- **C4** (counterexample): `_cmd_crop` does *not* clamp the parsed
bounds to `[0, 1]` — `crop(axis="x", arg2="-5,2")` is accepted and
applies the bounds `-5` and `2` verbatim, where the claim requires the
clamped values `0` and `1`. -/
theorem crop_bounds_not_clamped_counterexample :
    (ZMQCommandProcessor.process appCoreInit
      { command := some "crop", arg1 := some "x", arg2 := some "-5,2" }).2.success = true ∧
    (ZMQCommandProcessor.process appCoreInit
      { command := some "crop", arg1 := some "x", arg2 := some "-5,2" }).1.clip_min.x = -5 ∧
    (ZMQCommandProcessor.process appCoreInit
      { command := some "crop", arg1 := some "x", arg2 := some "-5,2" }).1.clip_max.x = 2 ∧
    pyClamp 0 1 (-5 : ℚ) = 0 ∧ pyClamp 0 1 (2 : ℚ) = 1 ∧
    ((-5 : ℚ) ≠ 0) ∧ ((2 : ℚ) ≠ 1) := by
  decide

/-- **C4** (amended): for every `crop` request whose `arg2` parses as
numeric bounds `min,max` and whose axis is one of `x`/`y`/`z`, the two
bounds are applied to the clip range of that axis *exactly as parsed*,
with no clamping to `[0, 1]`. -/
theorem crop_applies_bounds_exactly
    (core : AppCore) (d : CommandData) (c_min c_max : ℚ)
    (hcmd : d.command.getD "" = "crop")
    (hparse : ZMQCommandProcessor.cropRangeArg (d.arg2.getD "0.0,1.0") = some (c_min, c_max))
    (hax : pyLower (d.arg1.getD "x") ∈ (["x", "y", "z"] : List String)) :
    (ZMQCommandProcessor.process core d).2.success = true ∧
    clipRangeAlong (pyLower (d.arg1.getD "x")) (ZMQCommandProcessor.process core d).1 =
      (c_min, c_max) := by
  have hl : ZMQCommandProcessor.commandsLookup "crop" =
      some ZMQCommandProcessor._cmd_crop := rfl
  unfold ZMQCommandProcessor.process
  rw [hcmd]
  simp only [hl]
  unfold ZMQCommandProcessor._cmd_crop
  simp only [hparse]
  simp only [List.mem_cons, List.mem_singleton, List.not_mem_nil, or_false] at hax
  rcases hax with hax' | hax' | hax' <;> rw [hax'] <;> simp [clipRangeAlong]

/-- Witness for the amended C4 at `crop(axis="y", arg2="2,3")` (bounds
outside `[0, 1]`, applied verbatim). -/
theorem crop_applies_bounds_exactly_witness :
    ({ command := some "crop", arg1 := some "y", arg2 := some "2,3" } :
        CommandData).command.getD "" = "crop" ∧
    ZMQCommandProcessor.cropRangeArg
      (({ command := some "crop", arg1 := some "y", arg2 := some "2,3" } :
        CommandData).arg2.getD "0.0,1.0") = some (2, 3) ∧
    (ZMQCommandProcessor.process appCoreInit
      { command := some "crop", arg1 := some "y", arg2 := some "2,3" }).2.success = true ∧
    clipRangeAlong
      (pyLower (({ command := some "crop", arg1 := some "y", arg2 := some "2,3" } :
        CommandData).arg1.getD "x"))
      (ZMQCommandProcessor.process appCoreInit
        { command := some "crop", arg1 := some "y", arg2 := some "2,3" }).1 =
      (2, 3) :=
  ⟨rfl, by decide,
   crop_applies_bounds_exactly appCoreInit
     { command := some "crop", arg1 := some "y", arg2 := some "2,3" }
     2 3 rfl (by decide) (by decide)⟩

/-- **C5**: the claim (a failed `load_data` ends in a terminal `ERROR`,
not `ACK`) holds only for the client's missing-path check.  For an
unloadable path neither main-window variant emits an `ERROR`: the live
`3dviewer_gui` slot raises `TypeError` (the `progress_callback` keyword
does not exist in `AppCore.load_dataset`) before enqueuing any terminal,
and the stale `qt_main` slot hard-codes `"reply type": "ACK"` on the
failure message — it computes `status = "ERROR"` and then ignores it. -/
theorem load_data_failure_reply_types :
    ((systemHandle appCoreInit
        { command := some "load_data", UUID := some "u-5" }).1.2.map
        ReplyMsg.replyType = ["RCV", "ERROR"]) ∧
    (gui_handle_zmq_load_data appCoreInit
        { command := "load_data", raw_command := "load_data",
          arg1 := "missing_dir", arg2 := "", UUID := "u-5",
          comp_phys := "3dviewer", component := "3dviewer",
          comp_type := "other", tick_count := 0 } "missing_dir" =
      .error (.typeErrorKeyword "progress_callback")) ∧
    ((systemHandle appCoreInit
        { command := some "load_data", arg1 := some "missing_dir",
          UUID := some "u-5" }).1.2.map
        ReplyMsg.replyType = ["RCV", "FDB"]) ∧
    ((qt_handle_zmq_load_data appCoreInit "missing_dir|u-5").2.map
        QtReplyMsg.replyType = ["ACK"]) ∧
    ((qt_handle_zmq_load_data appCoreInit "missing_dir|u-5").2.map
        QtReplyMsg.message = [.guiFailedLoad "missing_dir"]) ∧
    appCoreInit.load_ok "missing_dir" = false :=
  ⟨by decide, rfl, by decide, by decide, rfl, rfl⟩

/-- **C6** (counterexample): `rotate` with the unknown axis `"z"` is
silently accepted — the default branch rotates Y and the terminal reply
is an `ACK`, where the claim requires an `ERROR` for any axis other than
`x`/`y`. -/
theorem rotate_unknown_axis_acked_counterexample :
    ((systemHandle appCoreInit
        { command := some "rotate", arg1 := some "z", arg2 := some "10",
          UUID := some "u-6" }).1.2.map ReplyMsg.replyType = ["RCV", "ACK"]) ∧
    (ZMQCommandProcessor.process appCoreInit
        { command := some "rotate", arg1 := some "z", arg2 := some "10" }).2.success = true ∧
    (ZMQCommandProcessor.process appCoreInit
        { command := some "rotate", arg1 := some "z", arg2 := some "10" }).2.message =
      .rotated "Z" 10 ∧
    ("z" ≠ "x" ∧ "z" ≠ "y") := by
  decide

/-- **C6** (amended): `set_rendering_mode` does reject an unrecognized
mode with a terminal `ERROR` whose message carries the list of valid
options; `rotate`, however, validates nothing: any axis other than `"x"`
(including unknown ones) applies a Y rotation and replies `ACK`. -/
theorem enum_argument_validation_amended :
    (∀ (core : AppCore) (d : CommandData) (slot : Int),
      d.command.getD "" = "set_rendering_mode" →
      slotArg d.arg2 = .ok slot →
      ZMQCommandProcessor.modeMap.lookup (pyLower (d.arg1.getD "")) = none →
      ZMQCommandProcessor.process core d =
        (core, ⟨false, .unknownMode (pyLower (d.arg1.getD ""))
                  (ZMQCommandProcessor.modeMap.map Prod.fst), none⟩)) ∧
    (∀ (core : AppCore) (d : CommandData) (degrees : ℚ),
      d.command.getD "" = "rotate" →
      ZMQCommandProcessor.rotateDegreesArg d = some degrees →
      pyLower (d.arg1.getD "y") ≠ "x" →
      ZMQCommandProcessor.process core d =
        ({ core with camera := core.camera.rotate 0 0 (-(degrees / 180)) 0 },
         ⟨true, .rotated (pyUpper (pyLower (d.arg1.getD "y"))) degrees, none⟩)) := by
  constructor
  · intro core d slot hcmd hslot hlook
    have hl : ZMQCommandProcessor.commandsLookup "set_rendering_mode" =
        some ZMQCommandProcessor._cmd_set_rendering_mode := rfl
    unfold ZMQCommandProcessor.process
    rw [hcmd]
    simp only [hl]
    unfold ZMQCommandProcessor._cmd_set_rendering_mode
    simp only [hslot, hlook]
  · intro core d degrees hcmd hdeg hx
    have hl : ZMQCommandProcessor.commandsLookup "rotate" =
        some ZMQCommandProcessor._cmd_rotate := rfl
    unfold ZMQCommandProcessor.process
    rw [hcmd]
    simp only [hl]
    unfold ZMQCommandProcessor._cmd_rotate
    simp only [hdeg]
    by_cases hy : pyLower (d.arg1.getD "y") = "y" <;> simp [hy, hx]

/-- Witness for the amended C6: `set_rendering_mode("bogus")` errs
listing the valid modes; `rotate(axis="q", 90)` is accepted and rotates
Y. -/
theorem enum_argument_validation_amended_witness :
    ZMQCommandProcessor.process appCoreInit
        { command := some "set_rendering_mode", arg1 := some "bogus" } =
      (appCoreInit, ⟨false, .unknownMode "bogus"
          ["mip", "volume", "cinematic", "mida", "shaded", "edge"], none⟩) ∧
    ZMQCommandProcessor.process appCoreInit
        { command := some "rotate", arg1 := some "q", arg2 := some "90" } =
      ({ appCoreInit with camera := appCoreInit.camera.rotate 0 0 (-(90 / 180)) 0 },
       ⟨true, .rotated "Q" 90, none⟩) :=
  ⟨enum_argument_validation_amended.1 appCoreInit
      { command := some "set_rendering_mode", arg1 := some "bogus" } 0 rfl rfl rfl,
   enum_argument_validation_amended.2 appCoreInit
      { command := some "rotate", arg1 := some "q", arg2 := some "90" } 90 rfl
      (by decide) (by decide)⟩

/-- **C7**: `set_density` (valid range 0.1–500.0) and `set_fov` (valid
range 1–160) clamp an out-of-range numeric argument to the nearest
bound instead of rejecting it, and the terminal `ACK` message reports
the clamped value actually applied; in particular
`set_density(arg1="9999")` reports `500`, never `9999`. -/
theorem numeric_range_clamped_and_reported :
    (∀ lo hi v : ℚ, lo ≤ hi →
      (hi < v → pyClamp lo hi v = hi) ∧ (v < lo → pyClamp lo hi v = lo)) ∧
    (∀ (core : AppCore) (d : CommandData) (v : ℚ) (slot : Int),
      d.command.getD "" = "set_density" →
      floatArgOr d.arg1 50 = some v →
      slotArg d.arg2 = .ok slot → ¬slot = 1 →
      ZMQCommandProcessor.process core d =
        ({ core with volume_density := pyClamp (mkRat 1 10) 500 v },
         ⟨true, .densitySet "Primary" (pyClamp (mkRat 1 10) 500 v), none⟩)) ∧
    (∀ (core : AppCore) (d : CommandData) (v : ℚ),
      d.command.getD "" = "set_fov" →
      floatArgOr d.arg1 45 = some v →
      ZMQCommandProcessor.process core d =
        ({ core with camera := { core.camera with fov := pyClamp 1 160 v } },
         ⟨true, .fovSet (pyClamp 1 160 v), none⟩)) ∧
    ((ZMQCommandProcessor.process appCoreInit
        { command := some "set_density", arg1 := some "9999" }).2.message =
        .densitySet "Primary" 500 ∧
      (ZMQCommandProcessor.process appCoreInit
        { command := some "set_density", arg1 := some "9999" }).2.success = true ∧
      ((500 : ℚ) ≠ 9999) ∧
      ((systemHandle appCoreInit
          { command := some "set_density", arg1 := some "9999",
            UUID := some "u-7" }).1.2.map ReplyMsg.replyType = ["RCV", "ACK"])) := by
  refine ⟨?_, ?_, ?_, by decide⟩
  · intro lo hi v hle
    constructor
    · intro hgt
      unfold pyClamp pyMin pyMax
      rw [if_pos hgt]
      rcases lt_or_eq_of_le hle with h | h
      · rw [if_pos h]
      · rw [h, if_neg (lt_irrefl hi)]
    · intro hlt
      unfold pyClamp pyMin pyMax
      rw [if_neg (not_lt.mpr (le_of_lt (lt_of_lt_of_le hlt hle))),
          if_neg (not_lt.mpr (le_of_lt hlt))]
  · intro core d v slot hcmd hval hslot hsl1
    have hl : ZMQCommandProcessor.commandsLookup "set_density" =
        some ZMQCommandProcessor._cmd_set_density := rfl
    unfold ZMQCommandProcessor.process
    rw [hcmd]
    simp only [hl]
    unfold ZMQCommandProcessor._cmd_set_density
    simp only [hval, hslot, hsl1, if_false]
  · intro core d v hcmd hval
    have hl : ZMQCommandProcessor.commandsLookup "set_fov" =
        some ZMQCommandProcessor._cmd_set_fov := rfl
    unfold ZMQCommandProcessor.process
    rw [hcmd]
    simp only [hl]
    unfold ZMQCommandProcessor._cmd_set_fov
    simp only [hval]

/-- Witness for C7: `set_density("9999")` clamps to the upper bound 500
and reports it; `set_fov("0.5")` clamps to the lower bound 1. -/
theorem numeric_range_clamped_and_reported_witness :
    pyClamp (mkRat 1 10) 500 9999 = 500 ∧
    ZMQCommandProcessor.process appCoreInit
        { command := some "set_density", arg1 := some "9999" } =
      ({ appCoreInit with volume_density := pyClamp (mkRat 1 10) 500 9999 },
       ⟨true, .densitySet "Primary" (pyClamp (mkRat 1 10) 500 9999), none⟩) ∧
    ZMQCommandProcessor.process appCoreInit
        { command := some "set_fov", arg1 := some "0.5" } =
      ({ appCoreInit with camera := { appCoreInit.camera with fov := pyClamp 1 160 (mkRat 1 2) } },
       ⟨true, .fovSet (pyClamp 1 160 (mkRat 1 2)), none⟩) :=
  ⟨((numeric_range_clamped_and_reported.1 (mkRat 1 10) 500 9999 (by norm_num)).1 (by norm_num)).trans
      (by norm_num),
   numeric_range_clamped_and_reported.2.1 appCoreInit
      { command := some "set_density", arg1 := some "9999" } 9999 0 rfl (by decide) rfl
      (by decide),
   numeric_range_clamped_and_reported.2.2.1 appCoreInit
      { command := some "set_fov", arg1 := some "0.5" } (mkRat 1 2) rfl (by decide)⟩

/-- **C8**: a percent-form `set_slice` resolves the slice index as the
integer truncation of `(N/100) x (extent - 1)` for the current volume
extent along the axis, clamped to `[0, extent - 1]`; in particular
`set_slice(axis="z", arg2="50%")` on a volume of depth 101 yields slice
index exactly 50. -/
theorem slice_percent_resolved_truncated_clamped :
    (∀ (core : AppCore) (d : CommandData) (axis_idx : Nat) (p : ℚ),
      d.command.getD "" = "set_slice" →
      ZMQCommandProcessor.axis_map.lookup (pyLower (d.arg1.getD "z")) = some axis_idx →
      pyEndsWith (d.arg2.getD "50%") "%" = true →
      pyFloat? (pyRstripPercent (d.arg2.getD "50%")) = some p →
      ZMQCommandProcessor.process core d =
        ({ core with
            slice_indices := tripleSet core.slice_indices axis_idx
              (pyClampInt (tripleGet core.volume_dims0 axis_idx - 1)
                (pyTrunc ((p / 100) * ((tripleGet core.volume_dims0 axis_idx : ℚ) - 1)))) },
         ⟨true, .sliceSet (pyUpper (pyLower (d.arg1.getD "z")))
            (pyClampInt (tripleGet core.volume_dims0 axis_idx - 1)
              (pyTrunc ((p / 100) * ((tripleGet core.volume_dims0 axis_idx : ℚ) - 1)))),
          none⟩)) ∧
    ((ZMQCommandProcessor.process { appCoreInit with volume_dims0 := (10, 20, 101) }
        { command := some "set_slice", arg1 := some "z",
          arg2 := some "50%" }).1.slice_indices = (0, 0, 50)) ∧
    ((ZMQCommandProcessor.process { appCoreInit with volume_dims0 := (10, 20, 101) }
        { command := some "set_slice", arg1 := some "z",
          arg2 := some "50%" }).2.message = .sliceSet "Z" 50) ∧
    pyTrunc ((50 / 100 : ℚ) * (101 - 1)) = 50 := by
  have harith : ((50 : ℚ) / 100) * (101 - 1) = 50 := by norm_num
  have main : ∀ (core : AppCore) (d : CommandData) (axis_idx : Nat) (p : ℚ),
      d.command.getD "" = "set_slice" →
      ZMQCommandProcessor.axis_map.lookup (pyLower (d.arg1.getD "z")) = some axis_idx →
      pyEndsWith (d.arg2.getD "50%") "%" = true →
      pyFloat? (pyRstripPercent (d.arg2.getD "50%")) = some p →
      ZMQCommandProcessor.process core d =
        ({ core with
            slice_indices := tripleSet core.slice_indices axis_idx
              (pyClampInt (tripleGet core.volume_dims0 axis_idx - 1)
                (pyTrunc ((p / 100) * ((tripleGet core.volume_dims0 axis_idx : ℚ) - 1)))) },
         ⟨true, .sliceSet (pyUpper (pyLower (d.arg1.getD "z")))
            (pyClampInt (tripleGet core.volume_dims0 axis_idx - 1)
              (pyTrunc ((p / 100) * ((tripleGet core.volume_dims0 axis_idx : ℚ) - 1)))),
          none⟩) := by
    intro core d axis_idx p hcmd hax hpct hp
    have hl : ZMQCommandProcessor.commandsLookup "set_slice" =
        some ZMQCommandProcessor._cmd_set_slice := rfl
    unfold ZMQCommandProcessor.process
    rw [hcmd]
    simp only [hl]
    unfold ZMQCommandProcessor._cmd_set_slice
    simp only [hax, hpct, if_true, hp, Option.map_some']
  have hconc := main { appCoreInit with volume_dims0 := (10, 20, 101) }
    { command := some "set_slice", arg1 := some "z", arg2 := some "50%" } 2 50
    rfl rfl rfl (by decide)
  refine ⟨main, ?_, ?_, ?_⟩
  · rw [hconc]
    dsimp only [tripleGet, tripleSet]
    rw [show (((101 : Int) : ℚ)) = 101 from by norm_num, harith]
    decide
  · rw [hconc]
    dsimp only [tripleGet, tripleSet]
    rw [show (((101 : Int) : ℚ)) = 101 from by norm_num, harith]
    decide
  · rw [harith]
    decide

/-- Witness for C8 at `set_slice(axis="z", arg2="50%")` against extent
`(10, 20, 101)`. -/
theorem slice_percent_resolved_witness :
    ZMQCommandProcessor.process { appCoreInit with volume_dims0 := (10, 20, 101) }
        { command := some "set_slice", arg1 := some "z", arg2 := some "50%" } =
      ({ { appCoreInit with volume_dims0 := (10, 20, 101) } with
          slice_indices :=
            tripleSet
              ({ appCoreInit with volume_dims0 := (10, 20, 101) } : AppCore).slice_indices 2
              (pyClampInt (tripleGet (10, 20, 101) 2 - 1)
                (pyTrunc ((50 / 100) * ((tripleGet (10, 20, 101) 2 : ℚ) - 1)))) },
       ⟨true, .sliceSet "Z"
          (pyClampInt (tripleGet (10, 20, 101) 2 - 1)
            (pyTrunc ((50 / 100) * ((tripleGet (10, 20, 101) 2 : ℚ) - 1)))), none⟩) :=
  slice_percent_resolved_truncated_clamped.1
    { appCoreInit with volume_dims0 := (10, 20, 101) }
    { command := some "set_slice", arg1 := some "z", arg2 := some "50%" } 2 50
    rfl rfl rfl (by decide)

/-- **C9**: the containment the claim describes holds only inside
`ZMQCommandProcessor.process`, which does catch handler exceptions and
converts them into a failure result (first two conjuncts: the
`set_density` `ValueError` is converted, and no branch of the poll-loop
body writes the `running` flag).  But a `load_data` message reaches the
`3dviewer_gui` slot, whose call
`load_dataset(path, progress_callback=...)` raises `TypeError`
(`AppCore.load_dataset` accepts no such keyword) with no enclosing
`try`: the exception escapes the dispatch boundary uncaught and no
terminal reply is produced — under PyQt's unhandled-slot-exception
policy this aborts the process and with it the poll loop, so a single
received message can terminate it. -/
theorem handler_exception_policy_divergence :
    (ZMQCommandProcessor.process appCoreInit
        { command := some "set_density", arg1 := some "10",
          arg2 := some "abc" } =
      (appCoreInit, ⟨false, .errException (.valueErrorInt "abc"), none⟩)) ∧
    ((runZmqStep "3dviewer"
        { running := true, core := appCoreInit, outQueue := [] }
        (some (.envelope { command := some "set_density", arg1 := some "10",
                           arg2 := some "abc", component := some "3dviewer",
                           sender := some "ctrl" }))).1.running = true) ∧
    ((systemHandle appCoreInit
        { command := some "load_data", arg1 := some "/data/y",
          UUID := some "u-9" }).2 =
      some (.typeErrorKeyword "progress_callback")) ∧
    ((systemHandle appCoreInit
        { command := some "load_data", arg1 := some "/data/y",
          UUID := some "u-9" }).1.2.filter
        (fun r => isTerminal r.replyType) = []) :=
  ⟨rfl, rfl, rfl, by decide⟩

/-! ### Per-handler purity on failure (helpers for C10) -/

open ZMQCommandProcessor in
theorem cmd_set_rendering_mode_err_pure (core : AppCore) (d : CommandData)
    (core2 : AppCore) (r : RDict)
    (hrun : _cmd_set_rendering_mode core d = .ok (core2, r))
    (hfail : r.success = false) : core2 = core := by
  simp only [_cmd_set_rendering_mode] at hrun
  repeat' split at hrun
  all_goals
    first
    | exact Except.noConfusion hrun
    | (simp only [Except.ok.injEq, Prod.mk.injEq] at hrun
       obtain ⟨h1, h2⟩ := hrun
       first
       | exact h1.symm
       | (subst h2; simp at hfail))

open ZMQCommandProcessor in
theorem cmd_set_transfer_function_err_pure (core : AppCore) (d : CommandData)
    (core2 : AppCore) (r : RDict)
    (hrun : _cmd_set_transfer_function core d = .ok (core2, r))
    (hfail : r.success = false) : core2 = core := by
  simp only [_cmd_set_transfer_function] at hrun
  repeat' split at hrun
  all_goals
    first
    | exact Except.noConfusion hrun
    | (simp only [Except.ok.injEq, Prod.mk.injEq] at hrun
       obtain ⟨h1, h2⟩ := hrun
       first
       | exact h1.symm
       | (subst h2; simp at hfail))

open ZMQCommandProcessor in
theorem cmd_set_threshold_err_pure (core : AppCore) (d : CommandData)
    (core2 : AppCore) (r : RDict)
    (hrun : _cmd_set_threshold core d = .ok (core2, r))
    (hfail : r.success = false) : core2 = core := by
  simp only [_cmd_set_threshold] at hrun
  repeat' split at hrun
  all_goals
    first
    | exact Except.noConfusion hrun
    | (simp only [Except.ok.injEq, Prod.mk.injEq] at hrun
       obtain ⟨h1, h2⟩ := hrun
       first
       | exact h1.symm
       | (subst h2; simp at hfail))

open ZMQCommandProcessor in
theorem cmd_set_density_err_pure (core : AppCore) (d : CommandData)
    (core2 : AppCore) (r : RDict)
    (hrun : _cmd_set_density core d = .ok (core2, r))
    (hfail : r.success = false) : core2 = core := by
  simp only [_cmd_set_density] at hrun
  repeat' split at hrun
  all_goals
    first
    | exact Except.noConfusion hrun
    | (simp only [Except.ok.injEq, Prod.mk.injEq] at hrun
       obtain ⟨h1, h2⟩ := hrun
       first
       | exact h1.symm
       | (subst h2; simp at hfail))

open ZMQCommandProcessor in
theorem cmd_rotate_err_pure (core : AppCore) (d : CommandData)
    (core2 : AppCore) (r : RDict)
    (hrun : _cmd_rotate core d = .ok (core2, r))
    (hfail : r.success = false) : core2 = core := by
  simp only [_cmd_rotate] at hrun
  repeat' split at hrun
  all_goals
    first
    | exact Except.noConfusion hrun
    | (simp only [Except.ok.injEq, Prod.mk.injEq] at hrun
       obtain ⟨h1, h2⟩ := hrun
       first
       | exact h1.symm
       | (subst h2; simp at hfail))

open ZMQCommandProcessor in
theorem cmd_zoom_err_pure (core : AppCore) (d : CommandData)
    (core2 : AppCore) (r : RDict)
    (hrun : _cmd_zoom core d = .ok (core2, r))
    (hfail : r.success = false) : core2 = core := by
  simp only [_cmd_zoom] at hrun
  repeat' split at hrun
  all_goals
    first
    | exact Except.noConfusion hrun
    | (simp only [Except.ok.injEq, Prod.mk.injEq] at hrun
       obtain ⟨h1, h2⟩ := hrun
       first
       | exact h1.symm
       | (subst h2; simp at hfail))

open ZMQCommandProcessor in
theorem cmd_reset_camera_err_pure (core : AppCore) (d : CommandData)
    (core2 : AppCore) (r : RDict)
    (hrun : _cmd_reset_camera core d = .ok (core2, r))
    (hfail : r.success = false) : core2 = core := by
  simp only [_cmd_reset_camera] at hrun
  simp only [Except.ok.injEq, Prod.mk.injEq] at hrun
  obtain ⟨h1, h2⟩ := hrun
  subst h2
  simp at hfail

open ZMQCommandProcessor in
theorem cmd_set_fov_err_pure (core : AppCore) (d : CommandData)
    (core2 : AppCore) (r : RDict)
    (hrun : _cmd_set_fov core d = .ok (core2, r))
    (hfail : r.success = false) : core2 = core := by
  simp only [_cmd_set_fov] at hrun
  repeat' split at hrun
  all_goals
    first
    | exact Except.noConfusion hrun
    | (simp only [Except.ok.injEq, Prod.mk.injEq] at hrun
       obtain ⟨h1, h2⟩ := hrun
       first
       | exact h1.symm
       | (subst h2; simp at hfail))

open ZMQCommandProcessor in
theorem cmd_set_slice_err_pure (core : AppCore) (d : CommandData)
    (core2 : AppCore) (r : RDict)
    (hrun : _cmd_set_slice core d = .ok (core2, r))
    (hfail : r.success = false) : core2 = core := by
  simp only [_cmd_set_slice] at hrun
  repeat' split at hrun
  all_goals
    first
    | exact Except.noConfusion hrun
    | (simp only [Except.ok.injEq, Prod.mk.injEq] at hrun
       obtain ⟨h1, h2⟩ := hrun
       first
       | exact h1.symm
       | (subst h2; simp at hfail))

open ZMQCommandProcessor in
theorem cmd_set_lighting_err_pure (core : AppCore) (d : CommandData)
    (core2 : AppCore) (r : RDict)
    (hrun : _cmd_set_lighting core d = .ok (core2, r))
    (hfail : r.success = false) : core2 = core := by
  simp only [_cmd_set_lighting] at hrun
  repeat' split at hrun
  all_goals
    first
    | exact Except.noConfusion hrun
    | (simp only [Except.ok.injEq, Prod.mk.injEq] at hrun
       obtain ⟨h1, h2⟩ := hrun
       first
       | exact h1.symm
       | (subst h2; simp at hfail))

open ZMQCommandProcessor in
theorem cmd_set_quality_err_pure (core : AppCore) (d : CommandData)
    (core2 : AppCore) (r : RDict)
    (hrun : _cmd_set_quality core d = .ok (core2, r))
    (hfail : r.success = false) : core2 = core := by
  simp only [_cmd_set_quality] at hrun
  repeat' split at hrun
  all_goals
    first
    | exact Except.noConfusion hrun
    | (simp only [Except.ok.injEq, Prod.mk.injEq] at hrun
       obtain ⟨h1, h2⟩ := hrun
       first
       | exact h1.symm
       | (subst h2; simp at hfail))

open ZMQCommandProcessor in
theorem cmd_crop_err_pure (core : AppCore) (d : CommandData)
    (core2 : AppCore) (r : RDict)
    (hrun : _cmd_crop core d = .ok (core2, r))
    (hfail : r.success = false) : core2 = core := by
  simp only [_cmd_crop] at hrun
  repeat' split at hrun
  all_goals
    first
    | exact Except.noConfusion hrun
    | (simp only [Except.ok.injEq, Prod.mk.injEq] at hrun
       obtain ⟨h1, h2⟩ := hrun
       first
       | exact h1.symm
       | (subst h2; simp at hfail))

open ZMQCommandProcessor in
theorem cmd_set_specular_err_pure (core : AppCore) (d : CommandData)
    (core2 : AppCore) (r : RDict)
    (hrun : _cmd_set_specular core d = .ok (core2, r))
    (hfail : r.success = false) : core2 = core := by
  simp only [_cmd_set_specular] at hrun
  repeat' split at hrun
  all_goals
    first
    | exact Except.noConfusion hrun
    | (simp only [Except.ok.injEq, Prod.mk.injEq] at hrun
       obtain ⟨h1, h2⟩ := hrun
       first
       | exact h1.symm
       | (subst h2; simp at hfail))

open ZMQCommandProcessor in
theorem cmd_set_shininess_err_pure (core : AppCore) (d : CommandData)
    (core2 : AppCore) (r : RDict)
    (hrun : _cmd_set_shininess core d = .ok (core2, r))
    (hfail : r.success = false) : core2 = core := by
  simp only [_cmd_set_shininess] at hrun
  repeat' split at hrun
  all_goals
    first
    | exact Except.noConfusion hrun
    | (simp only [Except.ok.injEq, Prod.mk.injEq] at hrun
       obtain ⟨h1, h2⟩ := hrun
       first
       | exact h1.symm
       | (subst h2; simp at hfail))

open ZMQCommandProcessor in
theorem cmd_set_gradient_weight_err_pure (core : AppCore) (d : CommandData)
    (core2 : AppCore) (r : RDict)
    (hrun : _cmd_set_gradient_weight core d = .ok (core2, r))
    (hfail : r.success = false) : core2 = core := by
  simp only [_cmd_set_gradient_weight] at hrun
  repeat' split at hrun
  all_goals
    first
    | exact Except.noConfusion hrun
    | (simp only [Except.ok.injEq, Prod.mk.injEq] at hrun
       obtain ⟨h1, h2⟩ := hrun
       first
       | exact h1.symm
       | (subst h2; simp at hfail))

open ZMQCommandProcessor in
theorem cmd_get_status_err_pure (core : AppCore) (d : CommandData)
    (core2 : AppCore) (r : RDict)
    (hrun : _cmd_get_status core d = .ok (core2, r))
    (hfail : r.success = false) : core2 = core := by
  simp only [_cmd_get_status] at hrun
  repeat' split at hrun
  all_goals
    first
    | exact Except.noConfusion hrun
    | (simp only [Except.ok.injEq, Prod.mk.injEq] at hrun
       obtain ⟨h1, h2⟩ := hrun
       first
       | exact h1.symm
       | (subst h2; simp at hfail))

/-- **C10**: for every registered command other than `load_data`, when
the handler returns a failure result (`success = false`, i.e. a terminal
`ERROR`), the application context is returned unchanged — every handler
finishes parsing and validating its arguments before its first state
write, so errored commands leave the state exactly as it was. -/
theorem errored_handlers_leave_state_unchanged
    (cmd : String) (h : Handler) (core : AppCore) (d : CommandData)
    (core2 : AppCore) (r : RDict)
    (hreg : ZMQCommandProcessor.commandsLookup cmd = some h)
    (hnotload : cmd ≠ "load_data")
    (hrun : h core d = .ok (core2, r))
    (hfail : r.success = false) :
    core2 = core := by
  by_cases h01 : cmd = "load_data"
  · exact absurd h01 hnotload
  by_cases h02 : cmd = "set_rendering_mode"
  · subst h02
    rw [show ZMQCommandProcessor.commandsLookup "set_rendering_mode" =
        some ZMQCommandProcessor._cmd_set_rendering_mode from rfl] at hreg
    injection hreg with hh
    subst hh
    exact cmd_set_rendering_mode_err_pure core d core2 r hrun hfail
  by_cases h03 : cmd = "set_transfer_function"
  · subst h03
    rw [show ZMQCommandProcessor.commandsLookup "set_transfer_function" =
        some ZMQCommandProcessor._cmd_set_transfer_function from rfl] at hreg
    injection hreg with hh
    subst hh
    exact cmd_set_transfer_function_err_pure core d core2 r hrun hfail
  by_cases h04 : cmd = "set_threshold"
  · subst h04
    rw [show ZMQCommandProcessor.commandsLookup "set_threshold" =
        some ZMQCommandProcessor._cmd_set_threshold from rfl] at hreg
    injection hreg with hh
    subst hh
    exact cmd_set_threshold_err_pure core d core2 r hrun hfail
  by_cases h05 : cmd = "set_density"
  · subst h05
    rw [show ZMQCommandProcessor.commandsLookup "set_density" =
        some ZMQCommandProcessor._cmd_set_density from rfl] at hreg
    injection hreg with hh
    subst hh
    exact cmd_set_density_err_pure core d core2 r hrun hfail
  by_cases h06 : cmd = "rotate"
  · subst h06
    rw [show ZMQCommandProcessor.commandsLookup "rotate" =
        some ZMQCommandProcessor._cmd_rotate from rfl] at hreg
    injection hreg with hh
    subst hh
    exact cmd_rotate_err_pure core d core2 r hrun hfail
  by_cases h07 : cmd = "zoom"
  · subst h07
    rw [show ZMQCommandProcessor.commandsLookup "zoom" =
        some ZMQCommandProcessor._cmd_zoom from rfl] at hreg
    injection hreg with hh
    subst hh
    exact cmd_zoom_err_pure core d core2 r hrun hfail
  by_cases h08 : cmd = "reset_camera"
  · subst h08
    rw [show ZMQCommandProcessor.commandsLookup "reset_camera" =
        some ZMQCommandProcessor._cmd_reset_camera from rfl] at hreg
    injection hreg with hh
    subst hh
    exact cmd_reset_camera_err_pure core d core2 r hrun hfail
  by_cases h09 : cmd = "set_fov"
  · subst h09
    rw [show ZMQCommandProcessor.commandsLookup "set_fov" =
        some ZMQCommandProcessor._cmd_set_fov from rfl] at hreg
    injection hreg with hh
    subst hh
    exact cmd_set_fov_err_pure core d core2 r hrun hfail
  by_cases h10 : cmd = "set_slice"
  · subst h10
    rw [show ZMQCommandProcessor.commandsLookup "set_slice" =
        some ZMQCommandProcessor._cmd_set_slice from rfl] at hreg
    injection hreg with hh
    subst hh
    exact cmd_set_slice_err_pure core d core2 r hrun hfail
  by_cases h11 : cmd = "set_lighting"
  · subst h11
    rw [show ZMQCommandProcessor.commandsLookup "set_lighting" =
        some ZMQCommandProcessor._cmd_set_lighting from rfl] at hreg
    injection hreg with hh
    subst hh
    exact cmd_set_lighting_err_pure core d core2 r hrun hfail
  by_cases h12 : cmd = "set_quality"
  · subst h12
    rw [show ZMQCommandProcessor.commandsLookup "set_quality" =
        some ZMQCommandProcessor._cmd_set_quality from rfl] at hreg
    injection hreg with hh
    subst hh
    exact cmd_set_quality_err_pure core d core2 r hrun hfail
  by_cases h13 : cmd = "crop"
  · subst h13
    rw [show ZMQCommandProcessor.commandsLookup "crop" =
        some ZMQCommandProcessor._cmd_crop from rfl] at hreg
    injection hreg with hh
    subst hh
    exact cmd_crop_err_pure core d core2 r hrun hfail
  by_cases h14 : cmd = "set_specular"
  · subst h14
    rw [show ZMQCommandProcessor.commandsLookup "set_specular" =
        some ZMQCommandProcessor._cmd_set_specular from rfl] at hreg
    injection hreg with hh
    subst hh
    exact cmd_set_specular_err_pure core d core2 r hrun hfail
  by_cases h15 : cmd = "set_shininess"
  · subst h15
    rw [show ZMQCommandProcessor.commandsLookup "set_shininess" =
        some ZMQCommandProcessor._cmd_set_shininess from rfl] at hreg
    injection hreg with hh
    subst hh
    exact cmd_set_shininess_err_pure core d core2 r hrun hfail
  by_cases h16 : cmd = "set_gradient_weight"
  · subst h16
    rw [show ZMQCommandProcessor.commandsLookup "set_gradient_weight" =
        some ZMQCommandProcessor._cmd_set_gradient_weight from rfl] at hreg
    injection hreg with hh
    subst hh
    exact cmd_set_gradient_weight_err_pure core d core2 r hrun hfail
  by_cases h17 : cmd = "get_status"
  · subst h17
    rw [show ZMQCommandProcessor.commandsLookup "get_status" =
        some ZMQCommandProcessor._cmd_get_status from rfl] at hreg
    injection hreg with hh
    subst hh
    exact cmd_get_status_err_pure core d core2 r hrun hfail
  · exfalso
    have norm : ∀ (k : String), cmd ≠ k → (cmd == k) = false :=
      fun k hk => beq_eq_false_iff_ne.mpr hk
    simp only [ZMQCommandProcessor.commandsLookup, ZMQCommandProcessor.commandsList,
      List.lookup, norm _ h01, norm _ h02, norm _ h03, norm _ h04, norm _ h05,
      norm _ h06, norm _ h07, norm _ h08, norm _ h09, norm _ h10, norm _ h11,
      norm _ h12, norm _ h13, norm _ h14, norm _ h15, norm _ h16, norm _ h17] at hreg
    exact Option.noConfusion hreg

/-- Witness for C10: `crop(axis="z", arg2="abc")` fails to parse and
leaves the context untouched. -/
theorem errored_handlers_leave_state_unchanged_witness :
    ZMQCommandProcessor.commandsLookup "crop" = some ZMQCommandProcessor._cmd_crop ∧
    ("crop" : String) ≠ "load_data" ∧
    ZMQCommandProcessor._cmd_crop appCoreInit
      { command := some "crop", arg1 := some "z", arg2 := some "abc" } =
      .ok (appCoreInit, ⟨false, .invalidCropRange "abc", none⟩) ∧
    appCoreInit = appCoreInit :=
  ⟨rfl, by decide, rfl,
   errored_handlers_leave_state_unchanged "crop" ZMQCommandProcessor._cmd_crop
     appCoreInit { command := some "crop", arg1 := some "z", arg2 := some "abc" }
     appCoreInit ⟨false, .invalidCropRange "abc", none⟩
     rfl (by decide) rfl rfl⟩

end ThreeDViewer
